import Mathlib

/-
Verification development for the ai-interview-system backend.

The backend consists of three NestJS classes:
  ChatService        (chat.service.ts)      - per-client conversation history + chat calls
  EvaluationService  (evaluation.service.ts) - transcript grading, JSON recovery, record store
  AudioGateway       (audio.gateway.ts)      - socket event handlers driving the two services

The shallow embedding below translates those classes into pure Lean
functions.  External provider calls (Whisper transcription, Claude chat
completion, TTS synthesis) are modelled by passing their outcome in as an
explicit `Except String _` argument: `.ok v` for a successful reply and
`.error msg` for a thrown provider error carrying `msg` as its message.
Each handler consumes each outcome at most once, mirroring the source
which performs each provider call exactly once with no retry.  The
JavaScript `Map` objects are modelled as association lists with
first-match lookup; `JSON.parse` is modelled by an executable JSON parser
over the same value grammar (objects, arrays, strings with escapes,
decimal numbers, true/false/null; exponent number forms are not needed by
any statement below).  Log output and payload timestamps are ignored, as
no property mentions them.
-/

/-! ### JSON values (the result type of JSON.parse) -/

inductive Json where
  | null : Json
  | bool (b : Bool) : Json
  | num (q : Rat) : Json
  | str (s : String) : Json
  | arr (elems : List Json) : Json
  | obj (fields : List (String × Json)) : Json

/-- Left brace character, written via its code point. -/
def lbrace : Char := Char.ofNat 123

/-- Right brace character, written via its code point. -/
def rbrace : Char := Char.ofNat 125

/-- Double-quote character. -/
def quoteChar : Char := Char.ofNat 34

/-- Backslash character. -/
def backslashChar : Char := Char.ofNat 92

/-- JSON whitespace: space, tab, line feed, carriage return. -/
def isJsonWs (c : Char) : Bool :=
  c = Char.ofNat 32 || c = Char.ofNat 9 || c = Char.ofNat 10 || c = Char.ofNat 13

/-- Drop leading JSON whitespace. -/
def skipWs (cs : List Char) : List Char := cs.dropWhile isJsonWs

/-- Value of one hexadecimal digit. -/
def hexVal (c : Char) : Option Nat :=
  if c.isDigit then some (c.toNat - 48)
  else if 'a' ≤ c ∧ c ≤ 'f' then some (c.toNat - 87)
  else if 'A' ≤ c ∧ c ≤ 'F' then some (c.toNat - 55)
  else none

/-- Parse the body of a JSON string literal (the opening quote already
consumed), handling the standard escapes, and return the string together
with the input following the closing quote. -/
def parseStringLit (acc : List Char) : List Char → Option (String × List Char)
  | [] => none
  | c :: rest =>
    if c = quoteChar then some (String.mk acc.reverse, rest)
    else if c = backslashChar then
      match rest with
      | [] => none
      | e :: rest2 =>
        if e = quoteChar then parseStringLit (quoteChar :: acc) rest2
        else if e = backslashChar then parseStringLit (backslashChar :: acc) rest2
        else if e = '/' then parseStringLit ('/' :: acc) rest2
        else if e = 'n' then parseStringLit (Char.ofNat 10 :: acc) rest2
        else if e = 't' then parseStringLit (Char.ofNat 9 :: acc) rest2
        else if e = 'r' then parseStringLit (Char.ofNat 13 :: acc) rest2
        else if e = 'b' then parseStringLit (Char.ofNat 8 :: acc) rest2
        else if e = 'f' then parseStringLit (Char.ofNat 12 :: acc) rest2
        else if e = 'u' then
          match rest2 with
          | h1 :: h2 :: h3 :: h4 :: rest3 =>
            match hexVal h1, hexVal h2, hexVal h3, hexVal h4 with
            | some a, some b, some c2, some d =>
              parseStringLit (Char.ofNat (((a * 16 + b) * 16 + c2) * 16 + d) :: acc) rest3
            | _, _, _, _ => none
          | _ => none
        else none
    else parseStringLit (c :: acc) rest

/-- Split a leading run of decimal digits off the input. -/
def digitsSpan : List Char → (List Nat × List Char)
  | [] => ([], [])
  | c :: rest =>
    if c.isDigit then
      let p := digitsSpan rest
      ((c.toNat - 48) :: p.1, p.2)
    else ([], c :: rest)

/-- Decimal digits to a natural number. -/
def digitsToNat (ds : List Nat) : Nat := ds.foldl (fun a d => a * 10 + d) 0

/-- Parse a JSON number (optional minus sign, integer part, optional
fraction part). -/
def parseNumber (cs : List Char) : Option (Rat × List Char) :=
  let signedTail : Bool × List Char :=
    match cs with
    | c :: rest => if c = '-' then (true, rest) else (false, cs)
    | [] => (false, cs)
  match digitsSpan signedTail.2 with
  | ([], _) => none
  | (ds, rest) =>
    let ip : Rat := (digitsToNat ds : Rat)
    match rest with
    | c :: r2 =>
      if c = '.' then
        match digitsSpan r2 with
        | ([], _) => none
        | (fs, rest2) =>
          let q : Rat := ip + (digitsToNat fs : Rat) / (10 : Rat) ^ fs.length
          some (if signedTail.1 then -q else q, rest2)
      else some (if signedTail.1 then -ip else ip, rest)
    | [] => some (if signedTail.1 then -ip else ip, [])

/-- Parse a comma-separated list of array elements up to the closing
bracket, given a parser `pv` for one value.  The fuel argument bounds the
number of elements. -/
def parseElemsWith (pv : List Char → Option (Json × List Char)) :
    Nat → List Char → Option (List Json × List Char)
  | 0, _ => none
  | fuel + 1, cs =>
    match pv cs with
    | none => none
    | some (v, rest) =>
      match skipWs rest with
      | c :: rest2 =>
        if c = ',' then
          match parseElemsWith pv fuel rest2 with
          | none => none
          | some (vs, rest3) => some (v :: vs, rest3)
        else if c = ']' then some ([v], rest2)
        else none
      | [] => none

/-- Parse a comma-separated list of object members up to the closing
brace, given a parser `pv` for one value. -/
def parseFieldsWith (pv : List Char → Option (Json × List Char)) :
    Nat → List Char → Option (List (String × Json) × List Char)
  | 0, _ => none
  | fuel + 1, cs =>
    match skipWs cs with
    | c :: rest =>
      if c = quoteChar then
        match parseStringLit [] rest with
        | none => none
        | some (key, rest2) =>
          match skipWs rest2 with
          | c2 :: rest3 =>
            if c2 = ':' then
              match pv rest3 with
              | none => none
              | some (v, rest4) =>
                match skipWs rest4 with
                | c3 :: rest5 =>
                  if c3 = ',' then
                    match parseFieldsWith pv fuel rest5 with
                    | none => none
                    | some (fs, rest6) => some ((key, v) :: fs, rest6)
                  else if c3 = rbrace then some ([(key, v)], rest5)
                  else none
                | [] => none
            else none
          | [] => none
      else none
    | [] => none

/-- Parse one JSON value, returning it and the remaining input.  The fuel
argument bounds the nesting depth and the per-level member counts; the
top-level entry point supplies the input length plus one, which is ample
for every parsable input. -/
def parseVal : Nat → List Char → Option (Json × List Char)
  | 0, _ => none
  | fuel + 1, cs0 =>
    match skipWs cs0 with
    | [] => none
    | c :: rest =>
      if c = lbrace then
        match skipWs rest with
        | c2 :: rest2 =>
          if c2 = rbrace then some (Json.obj [], rest2)
          else
            match parseFieldsWith (parseVal fuel) fuel (skipWs rest) with
            | none => none
            | some (fs, rest3) => some (Json.obj fs, rest3)
        | [] => none
      else if c = '[' then
        match skipWs rest with
        | c2 :: rest2 =>
          if c2 = ']' then some (Json.arr [], rest2)
          else
            match parseElemsWith (parseVal fuel) fuel (skipWs rest) with
            | none => none
            | some (vs, rest3) => some (Json.arr vs, rest3)
        | [] => none
      else if c = quoteChar then
        match parseStringLit [] rest with
        | none => none
        | some (s, rest2) => some (Json.str s, rest2)
      else
        match c :: rest with
        | 't' :: 'r' :: 'u' :: 'e' :: r => some (Json.bool true, r)
        | 'f' :: 'a' :: 'l' :: 's' :: 'e' :: r => some (Json.bool false, r)
        | 'n' :: 'u' :: 'l' :: 'l' :: r => some (Json.null, r)
        | cs =>
          match parseNumber cs with
          | none => none
          | some (q, r) => some (Json.num q, r)

/-- Model of JSON.parse on a character list: one value, then only
trailing whitespace. -/
def Json.parseChars (cs : List Char) : Option Json :=
  match parseVal (cs.length + 1) cs with
  | some (j, rest) => if (skipWs rest).isEmpty then some j else none
  | none => none

/-- Model of JSON.parse on a string. -/
def Json.parse (s : String) : Option Json := Json.parseChars s.data

/-- Last binding of a key in an object field list (JavaScript duplicate
keys: the last occurrence wins). -/
def lastMatch : List (String × Json) → String → Option Json
  | [], _ => none
  | (k, v) :: rest, key =>
    match lastMatch rest key with
    | some r => some r
    | none => if k = key then some v else none

/-- Property access `j.key` on a parsed value: a binding on an object,
`undefined` (here `none`) otherwise. -/
def Json.getField : Json → String → Option Json
  | Json.obj fields, key => lastMatch fields key
  | _, _ => none

/-- JavaScript truthiness of a property-access result: `undefined`,
`null`, `false`, `0` and the empty string are falsy; every object, array,
non-zero number, non-empty string and `true` is truthy. -/
def jsTruthy : Option Json → Bool
  | none => false
  | some Json.null => false
  | some (Json.bool b) => b
  | some (Json.num q) => decide (q ≠ 0)
  | some (Json.str s) => decide (s ≠ "")
  | some (Json.arr _) => true
  | some (Json.obj _) => true

/-- Constructor index of a JSON value, used to tell values apart without
a derived decidable equality. -/
def Json.tag : Json → Nat
  | Json.null => 0
  | Json.bool _ => 1
  | Json.num _ => 2
  | Json.str _ => 3
  | Json.arr _ => 4
  | Json.obj _ => 5

/-- Tag of the value stored under the `scores` key, used to distinguish
evaluation objects. -/
def scoresTag (j : Json) : Option Nat := (Json.getField j "scores").map Json.tag

/-! ### EvaluationService.parseEvaluation -/

/-- The regex match `evaluationText.match of open-brace, any characters,
close-brace` (greedy): the substring from the first left brace through
the last right brace, when the last right brace lies after the first left
brace; no match otherwise. -/
def extractBraces (cs : List Char) : Option (List Char) :=
  match cs.dropWhile (fun c => c != lbrace) with
  | [] => none
  | c :: rest =>
    match (c :: rest).reverse.dropWhile (fun ch => ch != rbrace) with
    | [] => none
    | r :: rrest => some ((r :: rrest).reverse)

/-- The fixed fallback record returned by parseEvaluation when JSON
recovery fails: all five scores 5, one fixed strength message, no
improvements, a fixed retry summary (evaluation.service.ts lines
219-233). -/
def fallbackJson : Json :=
  Json.obj
    [("scores", Json.obj
        [("communication", Json.num 5),
         ("technical", Json.num 5),
         ("motivation", Json.num 5),
         ("problemSolving", Json.num 5),
         ("overall", Json.num 5)]),
     ("comments", Json.obj
        [("strengths", Json.arr [Json.str "評価データの生成に失敗しました"]),
         ("improvements", Json.arr []),
         ("summary", Json.str "評価を再試行してください")])]

/-- EvaluationService.parseEvaluation (evaluation.service.ts lines
196-235): extract the brace-delimited substring, JSON-parse it, check
that the `scores` and `comments` properties are truthy, and return the
parsed value; any failure is caught and yields the fixed fallback
record.  The function is total: no error propagates. -/
def parseEvaluation (evaluationText : String) : Json :=
  match extractBraces evaluationText.data with
  | none => fallbackJson
  | some sub =>
    match Json.parseChars sub with
    | none => fallbackJson
    | some parsed =>
      if jsTruthy (Json.getField parsed "scores") && jsTruthy (Json.getField parsed "comments")
      then parsed
      else fallbackJson

/-! ### Per-client stores (the JavaScript Map objects) -/

/-- Lookup in an association-list store. -/
def storeGet {α : Type} : List (String × α) → String → Option α
  | [], _ => none
  | (k, v) :: rest, key => if k = key then some v else storeGet rest key

/-- Map.set: bind a key, shadowing any earlier binding. -/
def storeSet {α : Type} (s : List (String × α)) (key : String) (v : α) :
    List (String × α) := (key, v) :: s

/-- Map.delete: remove every binding of a key. -/
def storeDel {α : Type} : List (String × α) → String → List (String × α)
  | [], _ => []
  | (k, v) :: rest, key =>
    if k = key then storeDel rest key else (k, v) :: storeDel rest key

/-! ### ChatService (chat.service.ts) -/

/-- Message role, as in the history entries pushed by ChatService. -/
inductive Role where
  | user : Role
  | assistant : Role
deriving DecidableEq

/-- One conversation turn: role plus content. -/
structure Message where
  role : Role
  content : String
deriving DecidableEq

/-- The conversationHistory map of ChatService. -/
abbrev ChatState := List (String × List Message)

/-- ChatService.getHistory (lines 122-124): the stored history, or the
empty list when the client has none. -/
def getHistory (clientId : String) (h : ChatState) : List Message :=
  (storeGet h clientId).getD []

/-- The `if map lacks clientId then set clientId to empty` prologue shared
by chat and startInterview. -/
def ensureHistory (clientId : String) (h : ChatState) : ChatState :=
  match storeGet h clientId with
  | none => storeSet h clientId []
  | some _ => h

/-- Result of one ChatService call: the value returned or the error
rethrown, together with the history map after the call. -/
structure ChatOutcome where
  result : Except String String
  history : ChatState

/-- ChatService.chat (lines 43-74): push the user turn, call the provider
with the whole history, push the assistant turn on success and return it;
on provider failure rethrow, leaving the already-pushed user turn in the
history.  The provider call is passed in as its outcome. -/
def chatStep (clientId userMessage : String) (providerResult : Except String String)
    (h0 : ChatState) : ChatOutcome :=
  let h := ensureHistory clientId h0
  let hist := (storeGet h clientId).getD []
  let h1 := storeSet h clientId (hist ++ [⟨Role.user, userMessage⟩])
  match providerResult with
  | Except.error e => ⟨Except.error e, h1⟩
  | Except.ok assistantMessage =>
    ⟨Except.ok assistantMessage,
     storeSet h1 clientId
       (hist ++ [⟨Role.user, userMessage⟩, ⟨Role.assistant, assistantMessage⟩])⟩

/-- The fixed opening instruction used by startInterview. -/
def openingMessage : String := "面接を開始してください。"

/-- ChatService.startInterview (lines 79-109): call the provider with the
fixed opening instruction; on success push both the synthetic opening
turn and the assistant reply; on failure rethrow having pushed nothing
(the pushes sit after the awaited call). -/
def startInterviewStep (clientId : String) (providerResult : Except String String)
    (h0 : ChatState) : ChatOutcome :=
  let h := ensureHistory clientId h0
  match providerResult with
  | Except.error e => ⟨Except.error e, h⟩
  | Except.ok assistantMessage =>
    let hist := (storeGet h clientId).getD []
    ⟨Except.ok assistantMessage,
     storeSet h clientId
       (hist ++ [⟨Role.user, openingMessage⟩, ⟨Role.assistant, assistantMessage⟩])⟩

/-- ChatService.clearHistory (lines 114-117). -/
def clearHistory (clientId : String) (h : ChatState) : ChatState :=
  storeDel h clientId

/-- Run a sequence of chat calls, each given as the pair of the user
message and the successful provider reply. -/
def runChats (clientId : String) : List (String × String) → ChatState → ChatState
  | [], h => h
  | (u, r) :: rest, h =>
    runChats clientId rest (chatStep clientId u (Except.ok r) h).history

/-- The history a sequence of successful chat calls produces: the user
message then the assistant reply of each call, in call order. -/
def interleaveTurns : List (String × String) → List Message
  | [] => []
  | (u, r) :: rest => ⟨Role.user, u⟩ :: ⟨Role.assistant, r⟩ :: interleaveTurns rest

/-! ### EvaluationService.evaluateCandidate (evaluation.service.ts) -/

/-- Result of one evaluateCandidate call: the record returned or the
error thrown, together with the evaluations map after the call. -/
structure EvalOutcome where
  result : Except String Json
  evaluations : List (String × Json)

/-- The object spread building the stored record: the parsed fields plus
an evaluatedAt stamp.  parseEvaluation always yields an object; a
non-object operand would spread to the literal field alone, matching the
JavaScript spread of a primitive. -/
def Json.withEvaluatedAt : Json → String → Json
  | Json.obj fields, ts =>
    if fields.any (fun f => f.1 = "evaluatedAt") then
      Json.obj (fields.map (fun f =>
        if f.1 = "evaluatedAt" then (f.1, Json.str ts) else f))
    else Json.obj (fields ++ [("evaluatedAt", Json.str ts)])
  | _, ts => Json.obj [("evaluatedAt", Json.str ts)]

/-- The transcript rendering of generateEvaluation (lines 127-133):
each turn as a labelled line, joined by blank lines. -/
def renderConversation (conversationHistory : List Message) : String :=
  String.intercalate "\n\n" (conversationHistory.map (fun msg =>
    (if msg.role = Role.assistant then "面接官" else "候補者") ++ ": " ++ msg.content))

/-- EvaluationService.evaluateCandidate (lines 86-115): call the provider
on the grading prompt built from the rendered history (the fixed rubric
text wrapped around the transcript is constant and elided), recover a
record from the reply with parseEvaluation, stamp it, store it under the
client id and return it; any thrown error is replaced by the fixed
failure error and nothing is stored.  Note the function itself never
inspects whether the history is empty.  The provider is passed in as a
function from the transcript to its outcome; the current time as
`now`. -/
def evaluateCandidate (clientId : String) (conversationHistory : List Message)
    (provider : String → Except String String) (now : String)
    (evals : List (String × Json)) : EvalOutcome :=
  match provider (renderConversation conversationHistory) with
  | Except.error _ => ⟨Except.error "評価の生成に失敗しました", evals⟩
  | Except.ok evaluationText =>
    let result := (parseEvaluation evaluationText).withEvaluatedAt now
    ⟨Except.ok result, storeSet evals clientId result⟩

/-- EvaluationService.getEvaluation (lines 243-245). -/
def getEvaluation (clientId : String) (evals : List (String × Json)) : Option Json :=
  storeGet evals clientId

/-! ### AudioGateway (audio.gateway.ts) -/

/-- Outbound socket events, carrying the payload fields the properties
below mention (timestamps omitted). -/
inductive OutEvent where
  | transcription (text : String) : OutEvent
  | aiResponse (message : String) : OutEvent
  | aiAudioData (audioBytes : List Nat) : OutEvent
  | processingError (message : String) (error : String) : OutEvent
  | evaluationComplete (record : Json) : OutEvent
  | evaluationError (error : String) : OutEvent
  | evaluationResult (record : Json) : OutEvent

/-- The gateway-side state: its own audioBuffers map plus the two
injected services' maps. -/
structure GatewayState where
  audioBuffers : List (String × List (List Nat))
  chatHistory : ChatState
  evaluations : List (String × Json)

/-- Result of one socket handler: the events emitted to the client, in
emission order, and the state afterwards. -/
structure HandlerResult where
  events : List OutEvent
  state : GatewayState

/-- Result of one audio-complete run, additionally recording whether the
transient audio file was written and whether it was removed before the
run finished. -/
structure AudioRunResult where
  events : List OutEvent
  state : GatewayState
  fileWritten : Bool
  fileDeleted : Bool

/-- AudioGateway.handleConnection (lines 174-177): register an empty
audio buffer for the new client. -/
def handleConnection (clientId : String) (st : GatewayState) : GatewayState :=
  { st with audioBuffers := storeSet st.audioBuffers clientId [] }

/-- AudioGateway.handleDisconnect (lines 183-186): delete the client's
audio buffer.  Nothing else is touched: the chat history and any stored
evaluation record survive the disconnect. -/
def handleDisconnect (clientId : String) (st : GatewayState) : GatewayState :=
  { st with audioBuffers := storeDel st.audioBuffers clientId }

/-- AudioGateway.handleAudioData (lines 193-201): append the chunk when a
buffer entry exists, otherwise do nothing. -/
def handleAudioData (clientId : String) (chunk : List Nat) (st : GatewayState) :
    GatewayState :=
  match storeGet st.audioBuffers clientId with
  | none => st
  | some buffer =>
    { st with audioBuffers := storeSet st.audioBuffers clientId (buffer ++ [chunk]) }

/-- AudioGateway.handleAudioComplete (lines 207-275).  With a missing or
empty buffer: return immediately, no events, no state change, no file.
Otherwise: write the concatenated bytes to a transient file, transcribe,
emit `transcription`, chat, emit `ai-response`, synthesize, emit
`ai-audio`, delete the transient file and clear the buffer.  A throw at
any stage skips the rest and the catch emits one `processing-error`
carrying the thrown message; the file deletion and the buffer clearing
sit on the success path only.  Provider calls are passed in as their
outcomes; textToSpeech (lines 412-431) rethrows its provider error
unchanged, so its outcome stands for both. -/
def handleAudioComplete (clientId : String)
    (transcribeResult : Except String String)
    (chatProviderResult : Except String String)
    (synthResult : Except String (List Nat))
    (st : GatewayState) : AudioRunResult :=
  match storeGet st.audioBuffers clientId with
  | none => ⟨[], st, false, false⟩
  | some buffer =>
    if buffer.length = 0 then ⟨[], st, false, false⟩
    else
      match transcribeResult with
      | Except.error e =>
        ⟨[OutEvent.processingError "Failed to process audio" e], st, true, false⟩
      | Except.ok text =>
        let co := chatStep clientId text chatProviderResult st.chatHistory
        match co.result with
        | Except.error e =>
          ⟨[OutEvent.transcription text,
            OutEvent.processingError "Failed to process audio" e],
           { st with chatHistory := co.history }, true, false⟩
        | Except.ok reply =>
          match synthResult with
          | Except.error e =>
            ⟨[OutEvent.transcription text, OutEvent.aiResponse reply,
              OutEvent.processingError "Failed to process audio" e],
             { st with chatHistory := co.history }, true, false⟩
          | Except.ok audioBytes =>
            ⟨[OutEvent.transcription text, OutEvent.aiResponse reply,
              OutEvent.aiAudioData audioBytes],
             { st with chatHistory := co.history,
                       audioBuffers := storeSet st.audioBuffers clientId [] },
             true, true⟩

/-- AudioGateway.handleTextMessage (lines 282-308): chat with the
supplied text, emit `ai-response`, synthesize, emit `ai-audio`; on a
throw the catch emits one `processing-error` carrying the thrown
message. -/
def handleTextMessage (clientId message : String)
    (chatProviderResult : Except String String)
    (synthResult : Except String (List Nat))
    (st : GatewayState) : HandlerResult :=
  let co := chatStep clientId message chatProviderResult st.chatHistory
  match co.result with
  | Except.error e =>
    ⟨[OutEvent.processingError "Failed to generate response" e],
     { st with chatHistory := co.history }⟩
  | Except.ok reply =>
    match synthResult with
    | Except.error e =>
      ⟨[OutEvent.aiResponse reply,
        OutEvent.processingError "Failed to generate response" e],
       { st with chatHistory := co.history }⟩
    | Except.ok audioBytes =>
      ⟨[OutEvent.aiResponse reply, OutEvent.aiAudioData audioBytes],
       { st with chatHistory := co.history }⟩

/-- AudioGateway.handleStartInterview (lines 316-344): seeded opening via
ChatService.startInterview, emit `ai-response`, synthesize, emit
`ai-audio`; on a throw the catch emits one `processing-error` carrying
the thrown message. -/
def handleStartInterview (clientId : String)
    (chatProviderResult : Except String String)
    (synthResult : Except String (List Nat))
    (st : GatewayState) : HandlerResult :=
  let co := startInterviewStep clientId chatProviderResult st.chatHistory
  match co.result with
  | Except.error e =>
    ⟨[OutEvent.processingError "Failed to start interview" e],
     { st with chatHistory := co.history }⟩
  | Except.ok greeting =>
    match synthResult with
    | Except.error e =>
      ⟨[OutEvent.aiResponse greeting,
        OutEvent.processingError "Failed to start interview" e],
       { st with chatHistory := co.history }⟩
    | Except.ok audioBytes =>
      ⟨[OutEvent.aiResponse greeting, OutEvent.aiAudioData audioBytes],
       { st with chatHistory := co.history }⟩

/-- AudioGateway.handleEndInterview (lines 350-388): with an empty
history emit `evaluation-error` with the fixed no-history message and
stop; otherwise run evaluateCandidate over the full history and emit
`evaluation-complete` with the record, or, when it throws, one
`evaluation-error` carrying the fixed failure text (a literal in the
catch, independent of the thrown error). -/
def handleEndInterview (clientId : String)
    (evalProvider : String → Except String String) (now : String)
    (st : GatewayState) : HandlerResult :=
  let history := getHistory clientId st.chatHistory
  if history.length = 0 then
    ⟨[OutEvent.evaluationError "会話履歴がありません"], st⟩
  else
    let eo := evaluateCandidate clientId history evalProvider now st.evaluations
    match eo.result with
    | Except.ok record =>
      ⟨[OutEvent.evaluationComplete record], { st with evaluations := eo.evaluations }⟩
    | Except.error _ =>
      ⟨[OutEvent.evaluationError "評価の生成に失敗しました"], st⟩

/-- AudioGateway.handleGetEvaluation (lines 393-405). -/
def handleGetEvaluation (clientId : String) (st : GatewayState) : HandlerResult :=
  match getEvaluation clientId st.evaluations with
  | some record => ⟨[OutEvent.evaluationResult record], st⟩
  | none => ⟨[OutEvent.evaluationError "評価結果が見つかりません"], st⟩

/-! ### Concrete inputs used by the closed statements below -/

/-- A model reply whose brace block parses and has both required keys,
but with value 0 under each, which JavaScript treats as falsy. -/
def c2Text : String := "\x7b\"scores\": 0, \"comments\": 0\x7d"

/-- The parse of c2Text. -/
def c2Parsed : Json := Json.obj [("scores", Json.num 0), ("comments", Json.num 0)]

/-- A session with three buffered audio chunks. -/
def c3State : GatewayState := ⟨[("client-1", [[1, 2], [3], [4, 5]])], [], []⟩

/-- A session with one buffered chunk and one user turn in its chat
history. -/
def c4State : GatewayState :=
  ⟨[("client-1", [[0]])], [("client-1", [⟨Role.user, "hello"⟩])], []⟩

/-- A session with one buffered audio chunk. -/
def c6State : GatewayState := ⟨[("client-1", [[0]])], [], []⟩

/-- A session with a non-empty chat history and nothing else. -/
def c7State : GatewayState := ⟨[], [("client-1", [⟨Role.user, "hi"⟩])], []⟩

/-- A session with a buffered chunk and a non-empty chat history. -/
def c7WitnessState : GatewayState :=
  ⟨[("client-1", [[0]])], [("client-1", [⟨Role.user, "hi"⟩])], []⟩

/-- A session whose audio buffer entry exists but is empty. -/
def c8State : GatewayState := ⟨[("client-1", [])], [], []⟩

/-- A model reply with prose around a brace block whose `scores` value is
the bare number 99: both required keys are present and truthy, yet the
shape is wrong (not five numbers in the 1-10 range). -/
def c10Reply : String :=
  "Here is my evaluation: \x7b\"scores\": 99, \"comments\": \x7b\x7d\x7d Thank you."

/-- The parse of the brace block inside c10Reply. -/
def c10Parsed : Json := Json.obj [("scores", Json.num 99), ("comments", Json.obj [])]

/-! ### Store lemmas -/

theorem storeGet_set_self {α : Type} (s : List (String × α)) (k : String) (v : α) :
    storeGet (storeSet s k v) k = some v := by
  simp [storeSet, storeGet]

theorem storeGet_set_ne {α : Type} (s : List (String × α)) (k k' : String) (v : α)
    (h : k' ≠ k) : storeGet (storeSet s k v) k' = storeGet s k' := by
  simp [storeSet, storeGet, Ne.symm h]

theorem storeGet_del_self {α : Type} (s : List (String × α)) (k : String) :
    storeGet (storeDel s k) k = none := by
  induction s with
  | nil => rfl
  | cons p rest ih =>
    obtain ⟨pk, pv⟩ := p
    by_cases h : pk = k
    · simp [storeDel, h, ih]
    · simp [storeDel, storeGet, h, ih]

theorem storeGet_del_ne {α : Type} (s : List (String × α)) (k k' : String)
    (h : k' ≠ k) : storeGet (storeDel s k) k' = storeGet s k' := by
  induction s with
  | nil => rfl
  | cons p rest ih =>
    obtain ⟨pk, pv⟩ := p
    by_cases hpk : pk = k
    · simp [storeDel, storeGet, hpk, Ne.symm h, ih]
    · simp only [storeDel, if_neg hpk, storeGet]
      by_cases hpk' : pk = k'
      · simp [hpk']
      · simp [hpk', ih]

/-! ### ChatService lemmas -/

theorem storeGet_ensure (c : String) (h : ChatState) :
    storeGet (ensureHistory c h) c = some (getHistory c h) := by
  unfold ensureHistory getHistory
  cases hh : storeGet h c with
  | none => simp [hh, storeGet_set_self]
  | some l => simp [hh]

theorem getHistory_chatStep_ok (c u r : String) (h : ChatState) :
    getHistory c (chatStep c u (Except.ok r) h).history =
      getHistory c h ++ [⟨Role.user, u⟩, ⟨Role.assistant, r⟩] := by
  simp [chatStep, getHistory, storeGet_set_self, storeGet_ensure]

theorem getHistory_chatStep_error (c u e : String) (h : ChatState) :
    getHistory c (chatStep c u (Except.error e) h).history =
      getHistory c h ++ [⟨Role.user, u⟩] := by
  simp [chatStep, getHistory, storeGet_set_self, storeGet_ensure]

theorem getHistory_runChats (c : String) (calls : List (String × String)) :
    ∀ h : ChatState, getHistory c (runChats c calls h) =
      getHistory c h ++ interleaveTurns calls := by
  induction calls with
  | nil => intro h; simp [runChats, interleaveTurns]
  | cons p rest ih =>
    intro h
    obtain ⟨u, r⟩ := p
    simp [runChats, interleaveTurns, ih, getHistory_chatStep_ok]

theorem interleaveTurns_length (calls : List (String × String)) :
    (interleaveTurns calls).length = 2 * calls.length := by
  induction calls with
  | nil => rfl
  | cons p rest ih =>
    obtain ⟨u, r⟩ := p
    simp [interleaveTurns, ih]
    omega

/-! ### Claim theorems -/

/-- C1, counterexample.  evaluateCandidate called with an empty
conversation history and a succeeding provider does return a record and
does store it under the session identifier: the claim that it always
fails is false on the code (the empty-history guard lives only in the
gateway). -/
theorem C1_counterexample :
    (evaluateCandidate "client-1" [] (fun _ => Except.ok "no json in this reply")
        "t0" []).result = Except.ok (fallbackJson.withEvaluatedAt "t0") ∧
    storeGet (evaluateCandidate "client-1" [] (fun _ => Except.ok "no json in this reply")
        "t0" []).evaluations "client-1" = some (fallbackJson.withEvaluatedAt "t0") :=
  ⟨rfl, rfl⟩

/-- C1, amended.  The empty-history failure is enforced by the gateway:
for every session whose conversation history is empty, handleEndInterview
emits exactly the fixed evaluation-error and leaves the state untouched,
so evaluateCandidate is never reached and no record is stored;
evaluateCandidate itself does not reject an empty history. -/
theorem C1_amended_empty_history (c now : String)
    (provider : String → Except String String) (st : GatewayState)
    (h : getHistory c st.chatHistory = []) :
    handleEndInterview c provider now st =
      ⟨[OutEvent.evaluationError "会話履歴がありません"], st⟩ := by
  simp [handleEndInterview, h]

/-- C1, witness for the amended theorem at a concrete empty session. -/
theorem C1_witness :
    handleEndInterview "client-1" (fun _ => Except.ok "reply") "t0" ⟨[], [], []⟩ =
      ⟨[OutEvent.evaluationError "会話履歴がありません"], ⟨[], [], []⟩⟩ :=
  C1_amended_empty_history "client-1" "t0" (fun _ => Except.ok "reply") ⟨[], [], []⟩ rfl

/-- C2, counterexample.  The reply c2Text has a brace block that parses
and contains both a `scores` and a `comments` field, yet parseEvaluation
returns the fallback record rather than the parsed data, because the code
checks truthiness and both values are the falsy 0. -/
theorem C2_counterexample :
    extractBraces c2Text.data = some c2Text.data ∧
    Json.parseChars c2Text.data = some c2Parsed ∧
    Json.getField c2Parsed "scores" = some (Json.num 0) ∧
    Json.getField c2Parsed "comments" = some (Json.num 0) ∧
    parseEvaluation c2Text = fallbackJson ∧
    fallbackJson ≠ c2Parsed := by
  refine ⟨rfl, rfl, rfl, rfl, rfl, ?_⟩
  intro hcontra
  have h2 := congrArg scoresTag hcontra
  rw [show scoresTag fallbackJson = some 5 from rfl,
      show scoresTag c2Parsed = some 2 from rfl] at h2
  exact absurd h2 (by decide)

/-- C2, amended.  For every model reply: if the first-brace-to-last-brace
substring exists, parses, and its `scores` and `comments` fields are both
present with truthy values, parseEvaluation returns the parsed data
unchanged; otherwise (no such substring, a parse failure, or a missing or
falsy field) it returns exactly the fixed fallback record; being total it
never propagates an error. -/
theorem C2_amended_parse_policy (text : String) :
    (extractBraces text.data = none → parseEvaluation text = fallbackJson) ∧
    (∀ sub, extractBraces text.data = some sub →
      (Json.parseChars sub = none → parseEvaluation text = fallbackJson) ∧
      (∀ j, Json.parseChars sub = some j →
        ((jsTruthy (Json.getField j "scores") &&
            jsTruthy (Json.getField j "comments")) = true →
          parseEvaluation text = j) ∧
        ((jsTruthy (Json.getField j "scores") &&
            jsTruthy (Json.getField j "comments")) = false →
          parseEvaluation text = fallbackJson))) := by
  refine ⟨?_, ?_⟩
  · intro h; simp [parseEvaluation, h]
  · intro sub hsub
    refine ⟨?_, ?_⟩
    · intro h; simp [parseEvaluation, hsub, h]
    · intro j hj
      refine ⟨?_, ?_⟩
      · intro ht; simp [parseEvaluation, hsub, hj, ht]
      · intro hf; simp [parseEvaluation, hsub, hj, hf]

/-- C2, witness for the amended theorem: a reply with no brace block
yields exactly the fallback record. -/
theorem C2_witness :
    parseEvaluation "plain text reply with no structured block" = fallbackJson :=
  (C2_amended_parse_policy "plain text reply with no structured block").1 rfl

/-- C3.  The claim is right and the code is wrong: the transient audio
file is written before the provider calls, but the deletion sits on the
success path only, so on a transcription, chat, or synthesis failure the
run finishes with the file still present.  Evaluated on a session with
buffered audio at each of the three failure stages, plus the success path
for contrast. -/
theorem C3_temp_file_leak :
    ((handleAudioComplete "client-1" (Except.error "whisper unavailable")
        (Except.ok "") (Except.ok []) c3State).fileWritten = true ∧
     (handleAudioComplete "client-1" (Except.error "whisper unavailable")
        (Except.ok "") (Except.ok []) c3State).fileDeleted = false) ∧
    (handleAudioComplete "client-1" (Except.ok "text") (Except.error "claude down")
        (Except.ok []) c3State).fileDeleted = false ∧
    (handleAudioComplete "client-1" (Except.ok "text") (Except.ok "reply")
        (Except.error "tts down") c3State).fileDeleted = false ∧
    (handleAudioComplete "client-1" (Except.ok "text") (Except.ok "reply")
        (Except.ok [9]) c3State).fileDeleted = true :=
  ⟨⟨rfl, rfl⟩, rfl, rfl, rfl⟩

/-- C4, counterexample.  Disconnecting does not discard the conversation
history: on a session holding one user turn, the history is still there
after handleDisconnect, so the claim that disconnect discards both the
accumulator and the history is false on the code. -/
theorem C4_counterexample :
    getHistory "client-1" (handleDisconnect "client-1" c4State).chatHistory =
      [⟨Role.user, "hello"⟩] ∧
    ([⟨Role.user, "hello"⟩] : List Message) ≠ [] :=
  ⟨rfl, by simp⟩

/-- C4, amended.  Handling disconnect discards exactly the session's
audio accumulator; the conversation history and the stored evaluation
records are retained unchanged, and the audio accumulators of all other
sessions are unchanged. -/
theorem C4_amended_disconnect (c : String) (st : GatewayState) :
    storeGet (handleDisconnect c st).audioBuffers c = none ∧
    (handleDisconnect c st).chatHistory = st.chatHistory ∧
    (handleDisconnect c st).evaluations = st.evaluations ∧
    ∀ c', c' ≠ c →
      storeGet (handleDisconnect c st).audioBuffers c' = storeGet st.audioBuffers c' :=
  ⟨storeGet_del_self st.audioBuffers c, rfl, rfl,
   fun c' hc => storeGet_del_ne st.audioBuffers c c' hc⟩

/-- C4, witness for the amended theorem at a concrete pair of distinct
sessions. -/
theorem C4_witness :
    storeGet (handleDisconnect "client-1" c4State).audioBuffers "client-2" =
      storeGet c4State.audioBuffers "client-2" :=
  (C4_amended_disconnect "client-1" c4State).2.2.2 "client-2" (by decide)

/-- C5.  Starting from an empty history, after N successful chat calls
getHistory returns exactly the 2N turns interleaving each call's user
message with its assistant reply, in call order. -/
theorem C5_history_after_chats (c : String) (calls : List (String × String))
    (h0 : ChatState) (hempty : getHistory c h0 = []) :
    getHistory c (runChats c calls h0) = interleaveTurns calls ∧
    (getHistory c (runChats c calls h0)).length = 2 * calls.length := by
  have h := getHistory_runChats c calls h0
  rw [hempty, List.nil_append] at h
  exact ⟨h, by rw [h, interleaveTurns_length]⟩

/-- C5, witness at one concrete chat call. -/
theorem C5_witness :
    getHistory "client-1" (runChats "client-1" [("hi", "hello")] []) =
      interleaveTurns [("hi", "hello")] ∧
    (getHistory "client-1" (runChats "client-1" [("hi", "hello")] [])).length =
      2 * ([("hi", "hello")] : List (String × String)).length :=
  C5_history_after_chats "client-1" [("hi", "hello")] [] rfl

/-- C6.  On a run with a non-empty accumulator the emitted events are
exactly transcription, ai-response, ai-audio in that order on full
success; a failure at any stage skips the remaining stages and emits
exactly one processing-error after the events already emitted, which are
not retracted. -/
theorem C6_pipeline_events (c t reply e : String) (cr : Except String String)
    (sr : Except String (List Nat)) (audioBytes : List Nat) (st : GatewayState)
    (buf : List (List Nat)) (hbuf : storeGet st.audioBuffers c = some buf)
    (hne : buf ≠ []) :
    (handleAudioComplete c (Except.ok t) (Except.ok reply)
        (Except.ok audioBytes) st).events =
      [OutEvent.transcription t, OutEvent.aiResponse reply,
       OutEvent.aiAudioData audioBytes] ∧
    (handleAudioComplete c (Except.error e) cr sr st).events =
      [OutEvent.processingError "Failed to process audio" e] ∧
    (handleAudioComplete c (Except.ok t) (Except.error e) sr st).events =
      [OutEvent.transcription t,
       OutEvent.processingError "Failed to process audio" e] ∧
    (handleAudioComplete c (Except.ok t) (Except.ok reply) (Except.error e) st).events =
      [OutEvent.transcription t, OutEvent.aiResponse reply,
       OutEvent.processingError "Failed to process audio" e] := by
  have hlen : ¬ buf.length = 0 := by simpa [List.length_eq_zero] using hne
  refine ⟨?_, ?_, ?_, ?_⟩ <;> simp [handleAudioComplete, hbuf, hlen, chatStep]

/-- C6, witness on a concrete one-chunk session, full-success case. -/
theorem C6_witness :
    (handleAudioComplete "client-1" (Except.ok "t") (Except.ok "r")
        (Except.ok [37]) c6State).events =
      [OutEvent.transcription "t", OutEvent.aiResponse "r",
       OutEvent.aiAudioData [37]] :=
  (C6_pipeline_events "client-1" "t" "r" "e" (Except.ok "x") (Except.ok []) [37]
      c6State [[0]] rfl (by simp)).1

/-- C7, counterexample.  On a provider failure in the evaluation
pipeline the emitted evaluation-error carries a fixed message and not the
underlying provider error: two different provider error messages produce
the identical outbound event, so the claim that the underlying message is
attached is false on the code for this pipeline. -/
theorem C7_counterexample :
    (handleEndInterview "client-1" (fun _ => Except.error "rate limit exceeded")
        "t0" c7State).events =
      [OutEvent.evaluationError "評価の生成に失敗しました"] ∧
    (handleEndInterview "client-1" (fun _ => Except.error "rate limit exceeded")
        "t0" c7State).events =
      (handleEndInterview "client-1" (fun _ => Except.error "network unreachable")
        "t0" c7State).events :=
  ⟨rfl, rfl⟩

/-- C7, amended.  On a provider failure the audio, text-message and
start-interview pipelines emit a single processing-error whose error
field is exactly the underlying provider message, with no retry (each
handler performs each provider call at most once by construction); the
evaluation pipeline instead emits a single evaluation-error carrying a
fixed message independent of the provider error. -/
theorem C7_amended_error_messages (c msg t reply e now : String)
    (sr : Except String (List Nat)) (st : GatewayState) (buf : List (List Nat))
    (hbuf : storeGet st.audioBuffers c = some buf) (hne : buf ≠ [])
    (hhist : getHistory c st.chatHistory ≠ []) :
    (handleTextMessage c msg (Except.error e) sr st).events =
      [OutEvent.processingError "Failed to generate response" e] ∧
    (handleTextMessage c msg (Except.ok reply) (Except.error e) st).events =
      [OutEvent.aiResponse reply,
       OutEvent.processingError "Failed to generate response" e] ∧
    (handleStartInterview c (Except.error e) sr st).events =
      [OutEvent.processingError "Failed to start interview" e] ∧
    (handleStartInterview c (Except.ok reply) (Except.error e) st).events =
      [OutEvent.aiResponse reply,
       OutEvent.processingError "Failed to start interview" e] ∧
    (handleAudioComplete c (Except.error e) (Except.ok reply) sr st).events =
      [OutEvent.processingError "Failed to process audio" e] ∧
    (handleAudioComplete c (Except.ok t) (Except.error e) sr st).events =
      [OutEvent.transcription t,
       OutEvent.processingError "Failed to process audio" e] ∧
    (handleAudioComplete c (Except.ok t) (Except.ok reply) (Except.error e) st).events =
      [OutEvent.transcription t, OutEvent.aiResponse reply,
       OutEvent.processingError "Failed to process audio" e] ∧
    (∀ provider : String → Except String String,
      (∀ prompt, provider prompt = Except.error e) →
      (handleEndInterview c provider now st).events =
        [OutEvent.evaluationError "評価の生成に失敗しました"]) := by
  have hlen : ¬ buf.length = 0 := by simpa [List.length_eq_zero] using hne
  have hhlen : ¬ (getHistory c st.chatHistory).length = 0 := by
    simpa [List.length_eq_zero] using hhist
  refine ⟨?_, ?_, ?_, ?_, ?_, ?_, ?_, ?_⟩
  · simp [handleTextMessage, chatStep]
  · simp [handleTextMessage, chatStep]
  · simp [handleStartInterview, startInterviewStep]
  · simp [handleStartInterview, startInterviewStep]
  · simp [handleAudioComplete, hbuf, hlen]
  · simp [handleAudioComplete, hbuf, hlen, chatStep]
  · simp [handleAudioComplete, hbuf, hlen, chatStep]
  · intro provider hp
    simp [handleEndInterview, hhlen, evaluateCandidate, hp]

/-- C7, witness for the amended theorem: text pipeline with a failing
chat provider on a concrete session. -/
theorem C7_witness :
    (handleTextMessage "client-1" "msg" (Except.error "rate limit")
        (Except.ok []) c7WitnessState).events =
      [OutEvent.processingError "Failed to generate response" "rate limit"] :=
  (C7_amended_error_messages "client-1" "msg" "t" "r" "rate limit" "now"
      (Except.ok []) c7WitnessState [[0]] rfl (by decide) (by decide)).1

/-- C8.  With a missing or empty audio accumulator, audio-complete is a
no-op: no outbound events, no state change (and no transient file is even
written). -/
theorem C8_empty_buffer_noop (c : String) (tr cr : Except String String)
    (sr : Except String (List Nat)) (st : GatewayState)
    (h : storeGet st.audioBuffers c = none ∨ storeGet st.audioBuffers c = some []) :
    handleAudioComplete c tr cr sr st = ⟨[], st, false, false⟩ := by
  rcases h with h | h <;> simp [handleAudioComplete, h]

/-- C8, witness on a concrete session with an empty buffer entry. -/
theorem C8_witness :
    handleAudioComplete "client-1" (Except.ok "t") (Except.ok "r")
        (Except.ok []) c8State = ⟨[], c8State, false, false⟩ :=
  C8_empty_buffer_noop "client-1" (Except.ok "t") (Except.ok "r") (Except.ok [])
    c8State (Or.inr rfl)

/-- C9.  When the provider call inside chat fails, the error propagates
to the caller and the user turn pushed before the call remains: the
history afterwards is the history before plus exactly that one unanswered
user turn at the end. -/
theorem C9_failed_chat_keeps_user_turn (c u e : String) (h : ChatState) :
    (chatStep c u (Except.error e) h).result = Except.error e ∧
    getHistory c (chatStep c u (Except.error e) h).history =
      getHistory c h ++ [⟨Role.user, u⟩] ∧
    (getHistory c (chatStep c u (Except.error e) h).history).length =
      (getHistory c h).length + 1 := by
  have herr := getHistory_chatStep_error c u e h
  exact ⟨rfl, herr, by rw [herr]; simp⟩

/-- C10.  parseEvaluation checks only truthiness of the `scores` and
`comments` properties: the reply c10Reply carries a block whose `scores`
value is the bare number 99 (not five numbers in the 1-10 range), and
parseEvaluation returns that block as a successful result, not the
fallback record. -/
theorem C10_truthiness_only :
    parseEvaluation c10Reply = c10Parsed ∧
    Json.getField c10Parsed "scores" = some (Json.num 99) ∧
    parseEvaluation c10Reply ≠ fallbackJson := by
  refine ⟨rfl, rfl, ?_⟩
  intro hcontra
  have h2 := congrArg scoresTag hcontra
  rw [show scoresTag (parseEvaluation c10Reply) = some 2 from rfl,
      show scoresTag fallbackJson = some 5 from rfl] at h2
  exact absurd h2 (by decide)
